import Mathlib

/-!
Verification of the bundle pricing and validation engine of the BundlesApp
repository (src/app/utils/bundle.server.ts, the client-safe helpers in
src/unnamed/part_005, and the two validation routes
src/app/routes/api.pricing.validate.tsx and
src/app/routes/api.storefront.bundle.validate.tsx).

Modelling conventions used throughout:
* JavaScript numbers are modelled by the rationals; all arithmetic in the
  engine is exact on the realistic inputs (prices, quantities, percentages).
* JavaScript division that may divide by zero is modelled with Option:
  a division by zero yields a non-finite JS value (NaN or Infinity), which
  the model records as none.
* Nullable database columns and optional TS fields are modelled by Option.
* JavaScript truthiness tests on strings (null/empty falsy) and numbers
  (null/0 falsy) are modelled by explicit emptiness/zero tests at each site.
* Number-to-string interpolation is modelled by toString on rationals,
  which agrees with JS rendering on integral values (the only values that
  reach the message strings the claims mention); toFixed(2) is modelled by
  exact decimal rounding.
* Dates are modelled as rational timestamps (only their ordering is used).
-/

set_option maxHeartbeats 1000000

/-- Models JavaScript `Number.prototype.toFixed(2)` in exact rational
arithmetic: round to two decimals (half away handled as round-half-up)
and render with exactly two fraction digits. -/
def toFixed2 (q : ℚ) : String :=
  let n : ℤ := round (q * 100)
  let a := n.natAbs
  let sign := if n < 0 then "-" else ""
  let frac := a % 100
  let fracStr := if frac < 10 then "0" ++ toString frac else toString frac
  sign ++ toString (a / 100) ++ "." ++ fracStr

/-- Models JavaScript division where the divisor may be zero: `a / 0` in JS
is never a finite number (NaN or signed infinity), recorded here as none. -/
def jsDiv (a b : ℚ) : Option ℚ :=
  if b = 0 then none else some (a / b)

/-- Embedding of `SelectedItem` from src/app/types/bundle.ts (caller-supplied selection). -/
structure SelectedItem where
  productId : String
  variantId : String
  quantity : ℚ
  price : ℚ
deriving DecidableEq, Repr

/-- Embedding of `ItemPrice` from src/app/types/bundle.ts. -/
structure ItemPrice where
  productId : String
  variantId : String
  originalPrice : ℚ
  discountedPrice : ℚ
  quantity : ℚ
deriving DecidableEq, Repr

/-- Embedding of `AppliedDiscount` from src/app/types/bundle.ts; `type` is the
discount-type string (the TS enum is string-valued and the engine receives
it through an unchecked cast from a nullable DB column). -/
structure AppliedDiscount where
  type : String
  value : ℚ
  label : String
deriving DecidableEq, Repr

/-- Return value of `applyDiscount` in src/app/utils/bundle.server.ts. -/
structure DiscountResult where
  discountedPrice : ℚ
  appliedDiscount : AppliedDiscount
deriving DecidableEq, Repr

/-- Embedding of `VolumeRule` row (prisma model): minQuantity, nullable maxQuantity,
discountType string, discountValue, nullable label. -/
structure VolumeRule where
  minQuantity : ℚ
  maxQuantity : Option ℚ
  discountType : String
  discountValue : ℚ
  label : Option String
deriving DecidableEq, Repr

/-- Embedding of `BundleTier` row (prisma model); `allowedProducts` is stored as a JSON
string and modelled here in parsed form (none = column NULL, some ids =
the parsed array; a non-array JSON value never occurs in the repo). -/
structure BundleTier where
  id : String
  name : String
  price : ℚ
  productCount : ℚ
  allowedProducts : Option (List String)
deriving DecidableEq, Repr

/-- Embedding of `BundleItem` row (prisma model), restricted to the fields the engine
and the validation routes read. -/
structure BundleItem where
  shopifyProductId : String
  shopifyVariantId : Option String
  productTitle : String
  quantity : ℚ
  isRequired : Bool
deriving DecidableEq, Repr

/-- Embedding of `BundleCategory` row with its items (prisma model); `minSelect` is a
non-nullable column defaulting to 0, `maxSelect` is nullable. -/
structure BundleCategory where
  name : String
  minSelect : ℚ
  maxSelect : Option ℚ
  items : List BundleItem
deriving DecidableEq, Repr

/-- A `Bundle` row together with its included relations, as passed to
`calculateBundlePricing` and the validation routes. `type` and
`discountType` are the raw DB strings ("FIXED", "MIX_MATCH", "VOLUME",
"TIERED" resp. "percentage", "fixed_amount", "fixed_price",
"fixed_price_per_item"); nullable columns are Options. -/
structure Bundle where
  type : String
  price : Option ℚ
  discountType : Option String
  discountValue : Option ℚ
  minProducts : Option ℚ
  maxProducts : Option ℚ
  allowDuplicates : Bool
  applyToSameProduct : Bool
  items : List BundleItem
  volumeRules : List VolumeRule
  tiers : List BundleTier
  categories : List BundleCategory
deriving DecidableEq, Repr

/-- Embedding of `applyDiscount` (src/app/utils/bundle.server.ts lines 198-241): switch
on the discount-type string; unrecognized strings fall to the default
branch, which leaves the amount unchanged and produces an empty label. -/
def applyDiscount (originalPrice : ℚ) (discountType : String) (discountValue : ℚ) :
    DiscountResult :=
  if discountType = "percentage" then
    ⟨originalPrice * (1 - discountValue / 100),
     ⟨discountType, discountValue, toString discountValue ++ "% off"⟩⟩
  else if discountType = "fixed_amount" then
    ⟨max 0 (originalPrice - discountValue),
     ⟨discountType, discountValue, "€" ++ toFixed2 discountValue ++ " off"⟩⟩
  else if discountType = "fixed_price" then
    ⟨discountValue, ⟨discountType, discountValue, "€" ++ toFixed2 discountValue⟩⟩
  else if discountType = "fixed_price_per_item" then
    ⟨originalPrice, ⟨discountType, discountValue, "€" ++ toFixed2 discountValue ++ " per item"⟩⟩
  else
    ⟨originalPrice, ⟨discountType, discountValue, ""⟩⟩

/-- Descending comparison on `minQuantity`, the order produced by the JS
comparator `(a, b) => b.minQuantity - a.minQuantity`. -/
def ruleGE (a b : VolumeRule) : Prop :=
  b.minQuantity ≤ a.minQuantity

instance : DecidableRel ruleGE := fun a b =>
  inferInstanceAs (Decidable (b.minQuantity ≤ a.minQuantity))

instance : IsTotal VolumeRule ruleGE :=
  ⟨fun a b => le_total b.minQuantity a.minQuantity⟩

instance : IsTrans VolumeRule ruleGE :=
  ⟨fun _ _ _ hab hbc => le_trans hbc hab⟩

/-- The qualification test of the loop body of `findApplicableVolumeRule`
(src/app/utils/bundle.server.ts lines 251-257): quantity at or above the
rule minimum, and at or below the rule maximum when one is set. -/
def ruleQualifies (quantity : ℚ) (r : VolumeRule) : Bool :=
  decide (r.minQuantity ≤ quantity) &&
    (match r.maxQuantity with
     | none => true
     | some m => decide (quantity ≤ m))

/-- Embedding of `findApplicableVolumeRule` (src/app/utils/bundle.server.ts lines
244-260): stable-sort the rules by `minQuantity` descending (JS
`Array.prototype.sort` is stable; insertionSort with `ruleGE` reproduces
this) and return the first qualifying rule, if any. -/
def findApplicableVolumeRule (rules : List VolumeRule) (quantity : ℚ) :
    Option VolumeRule :=
  (List.insertionSort ruleGE rules).find? (ruleQualifies quantity)

/-- Outcome of one arm of the `switch (bundle.type)` statement in
`calculateBundlePricing` (src/app/utils/bundle.server.ts lines 76-172):
the updated `discountedPrice`, `appliedDiscount`, `isValid` and the
pushed error strings. -/
structure BranchOutcome where
  discountedPrice : ℚ
  appliedDiscount : Option AppliedDiscount
  isValid : Bool
  errors : List String
deriving DecidableEq, Repr

/-- The guarded discount application shared by the FIXED else-branch
(lines 86-97) and the MIX_MATCH branch (lines 102-110): JS
`bundle.discountType && bundle.discountValue !== null` — the string must
be non-null and non-empty (truthiness) and the value non-null. -/
def discountConfigBranch (bundle : Bundle) (originalPrice : ℚ) :
    ℚ × Option AppliedDiscount :=
  match bundle.discountType, bundle.discountValue with
  | some dt, some dv =>
      if dt = "" then (originalPrice, none)
      else
        let r := applyDiscount originalPrice dt dv
        (r.discountedPrice, some r.appliedDiscount)
  | _, _ => (originalPrice, none)

/-- JS `Math.min(...)` over a list of rationals (callers only reach this
with a non-empty list; the empty case is unreachable in the source). -/
def listMin : List ℚ → ℚ
  | [] => 0
  | x :: xs => xs.foldl min x

/-- The `switch (bundle.type)` of `calculateBundlePricing`
(src/app/utils/bundle.server.ts lines 76-172), branch by branch:
* FIXED: a set `price` wins; otherwise a configured discount is applied;
  otherwise nothing changes.
* MIX_MATCH: configured discount applied, then min/maxProducts bounds
  checked with JS truthiness (a null or 0 bound is skipped).
* VOLUME: the applicable volume rule (if any) is applied; the rule label
  replaces the generated one when truthy.
* TIERED: requires a truthy tierId matching a tier; the tier price wins
  and a product-count mismatch marks the result invalid without blocking
  the price.
* Any other type string falls through the switch unchanged. -/
def applyBundleType (bundle : Bundle) (selectedItems : List SelectedItem)
    (tierId : Option String) (quantity : ℚ) (originalPrice : ℚ) : BranchOutcome :=
  if bundle.type = "FIXED" then
    match bundle.price with
    | some p =>
        ⟨p * quantity, some ⟨"fixed_price", p, "Bundle price: €" ++ toFixed2 p⟩, true, []⟩
    | none =>
        let r := discountConfigBranch bundle originalPrice
        ⟨r.1, r.2, true, []⟩
  else if bundle.type = "MIX_MATCH" then
    let r := discountConfigBranch bundle originalPrice
    let totalProducts := (selectedItems.map (fun i => i.quantity)).sum
    let minErrs :=
      match bundle.minProducts with
      | some m =>
          if m ≠ 0 ∧ totalProducts < m then
            ["Minimum " ++ toString m ++ " products required"]
          else []
      | none => []
    let maxErrs :=
      match bundle.maxProducts with
      | some m =>
          if m ≠ 0 ∧ m < totalProducts then
            ["Maximum " ++ toString m ++ " products allowed"]
          else []
      | none => []
    ⟨r.1, r.2, (minErrs ++ maxErrs).isEmpty, minErrs ++ maxErrs⟩
  else if bundle.type = "VOLUME" then
    let totalQuantity := (selectedItems.map (fun i => i.quantity)).sum * quantity
    match findApplicableVolumeRule bundle.volumeRules totalQuantity with
    | some rule =>
        let r := applyDiscount originalPrice rule.discountType rule.discountValue
        let label :=
          match rule.label with
          | some l => if l = "" then r.appliedDiscount.label else l
          | none => r.appliedDiscount.label
        ⟨r.discountedPrice, some ⟨r.appliedDiscount.type, r.appliedDiscount.value, label⟩,
         true, []⟩
    | none => ⟨originalPrice, none, true, []⟩
  else if bundle.type = "TIERED" then
    match tierId with
    | some tid =>
        if tid = "" then ⟨originalPrice, none, false, ["Please select a tier"]⟩
        else
          match bundle.tiers.find? (fun t => t.id == tid) with
          | some tier =>
              let tierProductCount := (selectedItems.map (fun i => i.quantity)).sum
              let errs :=
                if tierProductCount ≠ tier.productCount then
                  [tier.name ++ " requires exactly " ++ toString tier.productCount ++ " products"]
                else []
              ⟨tier.price * quantity,
               some ⟨"fixed_price", tier.price, tier.name ++ ": €" ++ toFixed2 tier.price⟩,
               errs.isEmpty, errs⟩
          | none => ⟨originalPrice, none, false, ["Invalid tier selected"]⟩
    | none => ⟨originalPrice, none, false, ["Please select a tier"]⟩
  else ⟨originalPrice, none, true, []⟩

/-- Embedding of `PricingCalculationResponse` from src/app/types/bundle.ts. -/
structure PricingCalculationResponse where
  originalPrice : ℚ
  discountedPrice : ℚ
  savingsAmount : ℚ
  savingsPercent : ℚ
  itemPrices : List ItemPrice
  appliedDiscount : Option AppliedDiscount
  isValid : Bool
  validationErrors : List String
deriving DecidableEq, Repr

/-- Tail of `calculateBundlePricing` (src/app/utils/bundle.server.ts lines
174-194): proportional per-item reallocation when a discount was applied
and the original price is positive, then the savings figures (percent
guarded against a zero original price). -/
def finalizePricing (originalPrice : ℚ) (itemPrices0 : List ItemPrice)
    (b : BranchOutcome) : PricingCalculationResponse :=
  let itemPrices :=
    if b.appliedDiscount.isSome = true ∧ 0 < originalPrice then
      itemPrices0.map (fun ip =>
        { ip with discountedPrice := ip.originalPrice * (b.discountedPrice / originalPrice) })
    else itemPrices0
  let savingsAmount := originalPrice - b.discountedPrice
  ⟨originalPrice, b.discountedPrice, savingsAmount,
   (if 0 < originalPrice then savingsAmount / originalPrice * 100 else 0),
   itemPrices, b.appliedDiscount, b.isValid, b.errors⟩

/-- Embedding of `calculateBundlePricing` (src/app/utils/bundle.server.ts lines 39-195):
record per-item prices with `discountedPrice` initialized to the unit
price, total the selection (times the bundle quantity), run the per-type
switch, then finalize. -/
def calculateBundlePricing (bundle : Bundle) (selectedItems : List SelectedItem)
    (tierId : Option String) (quantity : ℚ) : PricingCalculationResponse :=
  let itemPrices0 := selectedItems.map (fun item =>
    (⟨item.productId, item.variantId, item.price, item.price, item.quantity⟩ : ItemPrice))
  let originalPrice := ((selectedItems.map (fun i => i.price * i.quantity)).sum) * quantity
  finalizePricing originalPrice itemPrices0
    (applyBundleType bundle selectedItems tierId quantity originalPrice)

/-- The `percent` constant computed inside `formatSavings`
(src/unnamed/part_005 lines 13-25): `(originalPrice - discountedPrice) /
originalPrice * 100` with no guard on the divisor, so a zero
`originalPrice` yields a non-finite JS value (none in this model). -/
def formatSavingsPercent (originalPrice discountedPrice : ℚ) : Option ℚ :=
  (jsDiv (originalPrice - discountedPrice) originalPrice).map (fun x => x * 100)

/-- Embedding of `ValidationError` from src/app/types/bundle.ts. -/
structure ValidationError where
  field : String
  message : String
  code : String
deriving DecidableEq, Repr

/-- Embedding of `ValidationResult` from src/app/types/bundle.ts. -/
structure ValidationResult where
  isValid : Bool
  errors : List ValidationError
deriving DecidableEq, Repr

/-- The `Partial<Bundle> & {items?, volumeRules?, tiers?}` argument of
`validateBundle`. It has two call sites: the update route
(src/app/routes/api.bundles.$id.tsx) spreads a full DB row merged with
update data, so scalar fields arrive present (null or a value), while the
create route (src/unnamed/part_015, POST /api/bundles) passes fields
destructured from the request body with no defaults, so an omitted field
arrives as JS undefined. Every check in the source except one tests its
field with truthiness, under which undefined and null behave identically,
so a single Option (none for either) models those fields faithfully.
`price` and `discountType` are the exception: the source compares them
with strict `=== null`, which distinguishes undefined from null, so they
are modelled with a two-level Option — the outer none is an absent field
(undefined), `some none` is an explicit null, and `some (some v)` is a
value. -/
structure PartialBundle where
  title : Option String
  type : Option String
  price : Option (Option ℚ)
  discountType : Option (Option String)
  discountValue : Option ℚ
  minProducts : Option ℚ
  maxProducts : Option ℚ
  startDate : Option ℚ
  endDate : Option ℚ
  items : Option (List BundleItem)
  volumeRules : Option (List VolumeRule)
  tiers : Option (List BundleTier)
deriving DecidableEq, Repr

/-- Models JavaScript `String.prototype.trim`: strip leading and trailing
whitespace, expressed over the character list. -/
def jsTrim (s : String) : String :=
  String.mk (((s.data.dropWhile Char.isWhitespace).reverse.dropWhile
    Char.isWhitespace).reverse)

/-- The `!list || list.length === 0` test used for the relation lists in
`validateBundle` (an absent list or an empty one). -/
def missingOrEmpty {α : Type} : Option (List α) → Bool
  | none => true
  | some l => l.isEmpty

/-- Embedding of `validateBundle` (src/app/utils/bundle.server.ts lines 263-363): all
checks are evaluated independently, each failure appends one
field/message/code entry, and the result is valid exactly when no entry
was appended. The FIXED price check is the source's strict
`bundle.price === null && bundle.discountType === null`, which is true
only for explicit nulls (`some none`), not for absent/undefined fields
(`none`). -/
def validateBundle (bundle : PartialBundle) : ValidationResult :=
  let titleErrs :=
    match bundle.title with
    | none => [⟨"title", "Title is required", "REQUIRED"⟩]
    | some t => if jsTrim t = "" then [⟨"title", "Title is required", "REQUIRED"⟩] else []
  let typeErrs :=
    match bundle.type with
    | none => [⟨"type", "Bundle type is required", "REQUIRED"⟩]
    | some t => if t = "" then [⟨"type", "Bundle type is required", "REQUIRED"⟩] else []
  let typeSpecific :=
    match bundle.type with
    | some "FIXED" =>
        (if missingOrEmpty bundle.items then
          [⟨"items", "Fixed bundles must have at least one item", "MIN_ITEMS"⟩]
         else []) ++
        (if bundle.price = some none ∧ bundle.discountType = some none then
          [⟨"price", "Fixed bundles must have a price or discount", "REQUIRED"⟩]
         else [])
    | some "MIX_MATCH" =>
        (if missingOrEmpty bundle.items then
          [⟨"items", "Mix & Match bundles must have available items", "MIN_ITEMS"⟩]
         else []) ++
        (match bundle.minProducts, bundle.maxProducts with
         | some mn, some mx =>
             if mn ≠ 0 ∧ mx ≠ 0 ∧ mx < mn then
               [⟨"minProducts", "Minimum products cannot exceed maximum", "INVALID_RANGE"⟩]
             else []
         | _, _ => [])
    | some "VOLUME" =>
        if missingOrEmpty bundle.volumeRules then
          [⟨"volumeRules", "Volume bundles must have at least one discount rule", "MIN_RULES"⟩]
        else []
    | some "TIERED" =>
        if missingOrEmpty bundle.tiers then
          [⟨"tiers", "Tiered bundles must have at least one tier", "MIN_TIERS"⟩]
        else []
    | _ => []
  let dateErrs :=
    match bundle.startDate, bundle.endDate with
    | some s, some e =>
        if e ≤ s then
          [⟨"endDate", "End date must be after start date", "INVALID_DATE_RANGE"⟩]
        else []
    | _, _ => []
  let errors := titleErrs ++ typeErrs ++ typeSpecific ++ dateErrs
  ⟨errors.isEmpty, errors⟩

/-- First-occurrence deduplication: the key order a JS `Map`/`Set` built by
one forward pass exhibits (insertion order, first occurrence kept). -/
def firstDedup : List String → List String
  | [] => []
  | x :: xs => x :: firstDedup (xs.filter (fun y => y ≠ x))
termination_by l => l.length
decreasing_by
  simp only [List.length_cons]
  exact Nat.lt_succ_of_le (List.length_filter_le _ _)

/-- Whether some element of the list repeats an earlier one (the
`seen`-set loop of the storefront duplicate check). -/
def hasDuplicate : List String → Bool
  | [] => false
  | x :: xs => xs.contains x || hasDuplicate xs

/-- The `SAME_PRODUCT_REQUIRED` check of the admin pricing-validation
route (src/app/routes/api.pricing.validate.tsx lines 196-206): with
`applyToSameProduct` set, the selected items must not span more than one
distinct `productId` (`new Set(...).size > 1`). -/
def sameProductErrors (bundle : Bundle) (selectedItems : List SelectedItem) :
    List ValidationError :=
  if bundle.applyToSameProduct = true ∧
      1 < (firstDedup (selectedItems.map (fun i => i.productId))).length then
    [⟨"selectedItems", "Volume discount applies only to the same product",
      "SAME_PRODUCT_REQUIRED"⟩]
  else []

/-- The validation pass of the admin route POST /api/pricing/validate
(src/app/routes/api.pricing.validate.tsx lines 52-284), returning the
accumulated errors and warnings; the route reports
`isValid: errors.length === 0`. All JS truthiness guards on numeric
fields skip a null or zero bound. -/
def pricingValidate (bundle : Bundle) (selectedItems : List SelectedItem)
    (tierId : Option String) (quantity : ℚ) : List ValidationError × List String :=
  let typeOutcome : List ValidationError × List String :=
    if bundle.type = "FIXED" then
      let reqErrs := ((bundle.items.filter (fun i => i.isRequired)).map (fun ri =>
        match selectedItems.find? (fun s =>
            ri.shopifyVariantId == some s.variantId || ri.shopifyProductId == s.productId) with
        | none =>
            [(⟨"selectedItems", "Required item missing: " ++ ri.productTitle,
               "REQUIRED_ITEM_MISSING"⟩ : ValidationError)]
        | some sel =>
            if sel.quantity < ri.quantity then
              [⟨"selectedItems",
                "Insufficient quantity for " ++ ri.productTitle ++ ": need " ++
                  toString ri.quantity ++ ", got " ++ toString sel.quantity,
                "INSUFFICIENT_QUANTITY"⟩]
            else [])).flatten
      let priceErrs :=
        if bundle.price = none ∧ bundle.discountType = none then
          [(⟨"price", "Bundle has no price or discount configured", "NO_PRICING"⟩ :
            ValidationError)]
        else []
      (reqErrs ++ priceErrs, [])
    else if bundle.type = "MIX_MATCH" then
      let totalProducts := (selectedItems.map (fun i => i.quantity)).sum
      let minErrs :=
        match bundle.minProducts with
        | some m =>
            if m ≠ 0 ∧ totalProducts < m then
              [(⟨"selectedItems",
                 "Minimum " ++ toString m ++ " products required, got " ++ toString totalProducts,
                 "MIN_PRODUCTS"⟩ : ValidationError)]
            else []
        | none => []
      let maxErrs :=
        match bundle.maxProducts with
        | some m =>
            if m ≠ 0 ∧ m < totalProducts then
              [(⟨"selectedItems",
                 "Maximum " ++ toString m ++ " products allowed, got " ++ toString totalProducts,
                 "MAX_PRODUCTS"⟩ : ValidationError)]
            else []
        | none => []
      let catErrs := (bundle.categories.map (fun c =>
        let catTotal := ((selectedItems.filter (fun s => c.items.any (fun ci =>
            ci.shopifyVariantId == some s.variantId || ci.shopifyProductId == s.productId))).map
          (fun i => i.quantity)).sum
        (if c.minSelect ≠ 0 ∧ catTotal < c.minSelect then
          [(⟨"categories",
             c.name ++ ": minimum " ++ toString c.minSelect ++ " items required, got " ++
               toString catTotal,
             "CATEGORY_MIN"⟩ : ValidationError)]
         else []) ++
        (match c.maxSelect with
         | some mx =>
             if mx ≠ 0 ∧ mx < catTotal then
               [(⟨"categories",
                  c.name ++ ": maximum " ++ toString mx ++ " items allowed, got " ++
                    toString catTotal,
                  "CATEGORY_MAX"⟩ : ValidationError)]
             else []
         | none => []))).flatten
      let dupErrs :=
        if bundle.allowDuplicates then []
        else
          let keyOf := fun (i : SelectedItem) =>
            if i.variantId = "" then i.productId else i.variantId
          ((firstDedup (selectedItems.map keyOf)).map (fun k =>
            if 1 < ((selectedItems.filter (fun i => keyOf i = k)).map
                (fun i => i.quantity)).sum then
              [(⟨"selectedItems", "Duplicate selection not allowed: " ++ k,
                 "NO_DUPLICATES"⟩ : ValidationError)]
            else [])).flatten
      (minErrs ++ maxErrs ++ catErrs ++ dupErrs, [])
    else if bundle.type = "VOLUME" then
      if bundle.volumeRules.isEmpty then
        ([(⟨"volumeRules", "No volume discount rules configured", "NO_RULES"⟩ :
           ValidationError)] ++ sameProductErrors bundle selectedItems, [])
      else
        let totalQty := (selectedItems.map (fun i => i.quantity)).sum * quantity
        let warns :=
          if bundle.volumeRules.find? (ruleQualifies totalQty) = none then
            ["Current quantity (" ++ toString totalQty ++
              ") does not qualify for any discount. Minimum " ++
              toString (listMin (bundle.volumeRules.map (fun r => r.minQuantity))) ++
              " required."]
          else []
        (sameProductErrors bundle selectedItems, warns)
    else if bundle.type = "TIERED" then
      match tierId with
      | some tid =>
          if tid = "" then
            ([⟨"tierId", "Please select a tier", "TIER_REQUIRED"⟩], [])
          else
            match bundle.tiers.find? (fun t => t.id == tid) with
            | some tier =>
                let tierProductCount := (selectedItems.map (fun i => i.quantity)).sum
                let cntErrs :=
                  if tierProductCount ≠ tier.productCount then
                    [(⟨"selectedItems",
                       tier.name ++ " requires exactly " ++ toString tier.productCount ++
                         " products, got " ++ toString tierProductCount,
                       "TIER_PRODUCT_COUNT"⟩ : ValidationError)]
                  else []
                let allowErrs :=
                  match tier.allowedProducts with
                  | some ids =>
                      if ids.isEmpty then []
                      else
                        match selectedItems.find? (fun i =>
                            !(ids.contains i.productId || ids.contains i.variantId)) with
                        | some _ =>
                            [(⟨"selectedItems",
                               "Product not available in " ++ tier.name ++ " tier",
                               "PRODUCT_NOT_IN_TIER"⟩ : ValidationError)]
                        | none => []
                  | none => []
                (cntErrs ++ allowErrs, [])
            | none => ([⟨"tierId", "Invalid tier selected", "INVALID_TIER"⟩], [])
      | none => ([⟨"tierId", "Please select a tier", "TIER_REQUIRED"⟩], [])
    else ([], [])
  let commonErrs :=
    (if quantity < 1 then
      [(⟨"quantity", "Quantity must be at least 1", "MIN_QUANTITY"⟩ : ValidationError)]
     else []) ++
    ((selectedItems.map (fun i =>
      if i.price < 0 then
        [(⟨"selectedItems", "Invalid price for item: " ++ i.productId,
           "INVALID_PRICE"⟩ : ValidationError)]
      else [])).flatten)
  (typeOutcome.1 ++ commonErrs, typeOutcome.2)

/-- The type-branch validation of the storefront route POST
/api/storefront/bundle/validate (src/app/routes/api.storefront.bundle.validate.tsx
lines 86-185), returning the accumulated errors and warnings of the
switch. The route afterwards appends errors from the external inventory
lookup (an injected collaborator, see `storefrontValidateIsValid`) and
reports `isValid: errors.length === 0`. The VOLUME branch performs no
`applyToSameProduct` check. -/
def storefrontValidate (bundle : Bundle) (selectedItems : List SelectedItem)
    (tierId : Option String) (quantity : ℚ) : List String × List String :=
  if bundle.type = "FIXED" then ([], [])
  else if bundle.type = "MIX_MATCH" then
    let totalProducts := (selectedItems.map (fun i => i.quantity)).sum
    let minErrs :=
      match bundle.minProducts with
      | some m =>
          if m ≠ 0 ∧ totalProducts < m then
            ["Select at least " ++ toString m ++ " products"]
          else []
      | none => []
    let maxErrs :=
      match bundle.maxProducts with
      | some m =>
          if m ≠ 0 ∧ m < totalProducts then
            ["Maximum " ++ toString m ++ " products allowed"]
          else []
      | none => []
    let catErrs := (bundle.categories.map (fun c =>
      let catTotal := ((selectedItems.filter (fun s =>
          (c.items.map (fun i => i.shopifyVariantId)).contains (some s.variantId))).map
        (fun i => i.quantity)).sum
      (if c.minSelect ≠ 0 ∧ catTotal < c.minSelect then
        [c.name ++ ": select at least " ++ toString c.minSelect ++ " items"]
       else []) ++
      (match c.maxSelect with
       | some mx =>
           if mx ≠ 0 ∧ mx < catTotal then
             [c.name ++ ": maximum " ++ toString mx ++ " items"]
           else []
       | none => []))).flatten
    let dupErrs :=
      if bundle.allowDuplicates = false ∧
          hasDuplicate (selectedItems.map (fun i => i.variantId)) = true then
        ["Duplicate products are not allowed in this bundle"]
      else []
    (minErrs ++ maxErrs ++ catErrs ++ dupErrs, [])
  else if bundle.type = "TIERED" then
    match tierId with
    | some tid =>
        if tid = "" then (["Please select a tier"], [])
        else
          match bundle.tiers.find? (fun t => t.id == tid) with
          | some tier =>
              let tierProductCount := (selectedItems.map (fun i => i.quantity)).sum
              (if tierProductCount < tier.productCount then
                ["Select " ++ toString (tier.productCount - tierProductCount) ++
                  " more products for " ++ tier.name]
               else if tier.productCount < tierProductCount then
                [tier.name ++ " allows only " ++ toString tier.productCount ++ " products"]
               else [], [])
          | none => (["Invalid tier selected"], [])
    | none => (["Please select a tier"], [])
  else if bundle.type = "VOLUME" then
    if selectedItems.isEmpty then (["Please select items"], [])
    else
      let totalQty := (selectedItems.map (fun i => i.quantity)).sum * quantity
      let warns :=
        if bundle.volumeRules.find? (ruleQualifies totalQty) = none ∧
            bundle.volumeRules.isEmpty = false then
          ["Add " ++
            toString (listMin (bundle.volumeRules.map (fun r => r.minQuantity)) - totalQty) ++
            " more to qualify for a discount"]
        else []
      ([], warns)
  else ([], [])

/-- The `isValid` flag of the storefront validate response: the switch
errors plus the errors contributed by the external inventory lookup
(modelled as a parameter, since stock data is an injected collaborator)
must all be absent. -/
def storefrontValidateIsValid (bundle : Bundle) (selectedItems : List SelectedItem)
    (tierId : Option String) (quantity : ℚ) (inventoryErrors : List String) : Bool :=
  ((storefrontValidate bundle selectedItems tierId quantity).1 ++ inventoryErrors).isEmpty

/-! ### Helper lemmas shared by the claim theorems -/

theorem calc_originalPrice (bundle : Bundle) (sel : List SelectedItem)
    (tid : Option String) (q : ℚ) :
    (calculateBundlePricing bundle sel tid q).originalPrice =
      ((sel.map fun i => i.price * i.quantity).sum) * q := by
  simp [calculateBundlePricing, finalizePricing]

theorem calc_discountedPrice (bundle : Bundle) (sel : List SelectedItem)
    (tid : Option String) (q : ℚ) :
    (calculateBundlePricing bundle sel tid q).discountedPrice =
      (applyBundleType bundle sel tid q
        (((sel.map fun i => i.price * i.quantity).sum) * q)).discountedPrice := by
  simp [calculateBundlePricing, finalizePricing]

theorem calc_appliedDiscount (bundle : Bundle) (sel : List SelectedItem)
    (tid : Option String) (q : ℚ) :
    (calculateBundlePricing bundle sel tid q).appliedDiscount =
      (applyBundleType bundle sel tid q
        (((sel.map fun i => i.price * i.quantity).sum) * q)).appliedDiscount := by
  simp [calculateBundlePricing, finalizePricing]

theorem calc_isValid (bundle : Bundle) (sel : List SelectedItem)
    (tid : Option String) (q : ℚ) :
    (calculateBundlePricing bundle sel tid q).isValid =
      (applyBundleType bundle sel tid q
        (((sel.map fun i => i.price * i.quantity).sum) * q)).isValid := by
  simp [calculateBundlePricing, finalizePricing]

theorem calc_validationErrors (bundle : Bundle) (sel : List SelectedItem)
    (tid : Option String) (q : ℚ) :
    (calculateBundlePricing bundle sel tid q).validationErrors =
      (applyBundleType bundle sel tid q
        (((sel.map fun i => i.price * i.quantity).sum) * q)).errors := by
  simp [calculateBundlePricing, finalizePricing]

theorem calc_savingsAmount (bundle : Bundle) (sel : List SelectedItem)
    (tid : Option String) (q : ℚ) :
    (calculateBundlePricing bundle sel tid q).savingsAmount =
      (calculateBundlePricing bundle sel tid q).originalPrice -
        (calculateBundlePricing bundle sel tid q).discountedPrice := by
  simp [calculateBundlePricing, finalizePricing]

theorem calc_savingsPercent (bundle : Bundle) (sel : List SelectedItem)
    (tid : Option String) (q : ℚ) :
    (calculateBundlePricing bundle sel tid q).savingsPercent =
      (if 0 < (calculateBundlePricing bundle sel tid q).originalPrice then
        (calculateBundlePricing bundle sel tid q).savingsAmount /
          (calculateBundlePricing bundle sel tid q).originalPrice * 100
       else 0) := by
  simp [calculateBundlePricing, finalizePricing]

/-- On a list sorted descending by `minQuantity`, the first element
satisfying a predicate has the largest `minQuantity` among all satisfying
elements. -/
theorem find?_sorted_max {p : VolumeRule → Bool} :
    ∀ {l : List VolumeRule}, l.Sorted ruleGE → ∀ {x : VolumeRule}, l.find? p = some x →
      ∀ y ∈ l, p y = true → y.minQuantity ≤ x.minQuantity := by
  intro l
  induction l with
  | nil => intro _ x hx; simp at hx
  | cons a t ih =>
    intro hs x hfind y hy hpy
    rw [List.sorted_cons] at hs
    by_cases hpa : p a = true
    · rw [List.find?_cons_of_pos _ hpa] at hfind
      injection hfind with hxa
      subst hxa
      rcases List.mem_cons.mp hy with hya | hyt
      · subst hya; exact le_refl _
      · exact hs.1 y hyt
    · rw [List.find?_cons_of_neg _ hpa] at hfind
      rcases List.mem_cons.mp hy with hya | hyt
      · subst hya; exact absurd hpy hpa
      · exact ih hs.2 hfind y hyt hpy

/-! ### Claim theorems -/

/-- C1. `applyDiscount` computes: percentage → `original * (1 - value/100)`
(so value 0 keeps the amount and value 100 yields 0); fixed_amount →
`max 0 (original - value)`, never negative; fixed_price → the value,
ignoring the original; fixed_price_per_item → the original unchanged; any
other discount-type string → the original unchanged with an empty label. -/
theorem applyDiscount_spec (orig v : ℚ) :
    (applyDiscount orig "percentage" v).discountedPrice = orig * (1 - v / 100)
    ∧ (applyDiscount orig "percentage" 0).discountedPrice = orig
    ∧ (applyDiscount orig "percentage" 100).discountedPrice = 0
    ∧ (applyDiscount orig "fixed_amount" v).discountedPrice = max 0 (orig - v)
    ∧ 0 ≤ (applyDiscount orig "fixed_amount" v).discountedPrice
    ∧ (applyDiscount orig "fixed_price" v).discountedPrice = v
    ∧ (applyDiscount orig "fixed_price_per_item" v).discountedPrice = orig
    ∧ ∀ dt : String,
        dt ∉ (["percentage", "fixed_amount", "fixed_price", "fixed_price_per_item"] :
          List String) →
        (applyDiscount orig dt v).discountedPrice = orig ∧
          (applyDiscount orig dt v).appliedDiscount.label = "" := by
  refine ⟨by simp [applyDiscount], by simp [applyDiscount], ?_, by simp [applyDiscount],
    ?_, by simp [applyDiscount], by simp [applyDiscount], ?_⟩
  · simp [applyDiscount]
  · simp only [applyDiscount]
    norm_num
    exact le_max_left 0 (orig - v)
  · intro dt hdt
    have h1 : ¬(dt = "percentage") := fun hh => hdt (by simp [hh])
    have h2 : ¬(dt = "fixed_amount") := fun hh => hdt (by simp [hh])
    have h3 : ¬(dt = "fixed_price") := fun hh => hdt (by simp [hh])
    have h4 : ¬(dt = "fixed_price_per_item") := fun hh => hdt (by simp [hh])
    constructor <;> simp [applyDiscount, h1, h2, h3, h4]

/-- Witness for C1 at a concrete unrecognized discount type. -/
theorem applyDiscount_spec_witness :
    (applyDiscount 7 "bogus" 3).discountedPrice = 7 ∧
      (applyDiscount 7 "bogus" 3).appliedDiscount.label = "" :=
  (applyDiscount_spec 7 3).2.2.2.2.2.2.2 "bogus" (by decide)

/-- C3. `findApplicableVolumeRule` returns a qualifying rule of maximal
`minQuantity` (quantity within the rule's bounds, the max unbounded when
null), none exactly when no rule qualifies; on the overlapping rules
[{min 3, max 5, 10%}, {min 6, max null, 20%}] at quantity 6 the 20% rule
is selected. -/
theorem findApplicableVolumeRule_spec (rules : List VolumeRule) (q : ℚ) :
    (∀ r, findApplicableVolumeRule rules q = some r →
        r ∈ rules ∧ ruleQualifies q r = true ∧
          ∀ s ∈ rules, ruleQualifies q s = true → s.minQuantity ≤ r.minQuantity)
    ∧ (findApplicableVolumeRule rules q = none ↔
        ∀ r ∈ rules, ruleQualifies q r = false)
    ∧ findApplicableVolumeRule
        [⟨3, some 5, "percentage", 10, none⟩, ⟨6, none, "percentage", 20, none⟩] 6 =
        some ⟨6, none, "percentage", 20, none⟩ := by
  refine ⟨?_, ?_, ?_⟩
  · intro r hr
    refine ⟨?_, List.find?_some hr, ?_⟩
    · have := List.mem_of_find?_eq_some hr
      rwa [List.mem_insertionSort] at this
    · intro s hs hqs
      exact find?_sorted_max (List.sorted_insertionSort ruleGE rules) hr s
        ((List.mem_insertionSort ruleGE).mpr hs) hqs
  · rw [findApplicableVolumeRule, List.find?_eq_none]
    constructor
    · intro h r hr
      have := h r ((List.mem_insertionSort ruleGE).mpr hr)
      simpa using this
    · intro h r hr
      have := h r ((List.mem_insertionSort ruleGE).mp hr)
      simp [this]
  · simp [findApplicableVolumeRule, List.insertionSort, List.orderedInsert, ruleGE,
      ruleQualifies, List.find?]

/-- Witness for C3: the selected rule in the overlapping example indeed
qualifies at quantity 6. -/
theorem findApplicableVolumeRule_spec_witness :
    ruleQualifies 6 ⟨6, none, "percentage", 20, none⟩ = true :=
  (((findApplicableVolumeRule_spec
      [⟨3, some 5, "percentage", 10, none⟩, ⟨6, none, "percentage", 20, none⟩] 6).1)
    ⟨6, none, "percentage", 20, none⟩
    ((findApplicableVolumeRule_spec
      [⟨3, some 5, "percentage", 10, none⟩, ⟨6, none, "percentage", 20, none⟩] 6).2.2)).2.1

/-- C2. For FIXED bundles: a configured `price` forces
`discountedPrice = price * quantity` regardless of the selection; failing
that, a configured discount type and value are applied to the original
price via the shared primitive; failing that, the discounted price equals
the original price. -/
theorem calculateBundlePricing_fixed_spec (bundle : Bundle) (sel : List SelectedItem)
    (tid : Option String) (q : ℚ) (h : bundle.type = "FIXED") :
    (∀ p, bundle.price = some p →
        (calculateBundlePricing bundle sel tid q).discountedPrice = p * q)
    ∧ (bundle.price = none → ∀ dt dv, bundle.discountType = some dt →
        bundle.discountValue = some dv →
        (calculateBundlePricing bundle sel tid q).discountedPrice =
          (applyDiscount (calculateBundlePricing bundle sel tid q).originalPrice
            dt dv).discountedPrice)
    ∧ (bundle.price = none →
        (bundle.discountType = none ∨ bundle.discountValue = none) →
        (calculateBundlePricing bundle sel tid q).discountedPrice =
          (calculateBundlePricing bundle sel tid q).originalPrice) := by
  refine ⟨?_, ?_, ?_⟩
  · intro p hp
    rw [calc_discountedPrice]
    simp [applyBundleType, h, hp]
  · intro hp dt dv hdt hdv
    rw [calc_discountedPrice, calc_originalPrice]
    by_cases hdt0 : dt = ""
    · subst hdt0
      simp [applyBundleType, h, hp, discountConfigBranch, hdt, hdv, applyDiscount]
    · simp [applyBundleType, h, hp, discountConfigBranch, hdt, hdv, hdt0]
  · intro hp hnone
    rw [calc_discountedPrice, calc_originalPrice]
    rcases hnone with hdt | hdv
    · simp [applyBundleType, h, hp, discountConfigBranch, hdt]
    · cases hdt : bundle.discountType with
      | none => simp [applyBundleType, h, hp, discountConfigBranch, hdt]
      | some dt => simp [applyBundleType, h, hp, discountConfigBranch, hdt, hdv]

/-- Witness bundle for C2: a FIXED bundle with a configured price of 50. -/
def exFixedBundle : Bundle :=
  ⟨"FIXED", some 50, none, none, none, none, true, false, [], [], [], []⟩

/-- Witness for C2: the configured price 50 wins over item prices 30+25. -/
theorem calculateBundlePricing_fixed_spec_witness :
    (calculateBundlePricing exFixedBundle
      [⟨"p1", "v1", 1, 30⟩, ⟨"p2", "v2", 1, 25⟩] none 1).discountedPrice = 50 * 1 :=
  (calculateBundlePricing_fixed_spec exFixedBundle
    [⟨"p1", "v1", 1, 30⟩, ⟨"p2", "v2", 1, 25⟩] none 1 rfl).1 50 rfl

/-- C10. A bundle whose `type` is none of the four recognized strings is
silently treated as undiscounted: valid, no errors, no applied discount,
discounted price equal to the original price, zero savings. -/
theorem calculateBundlePricing_unrecognized_type (bundle : Bundle)
    (sel : List SelectedItem) (tid : Option String) (q : ℚ)
    (h : bundle.type ∉ (["FIXED", "MIX_MATCH", "VOLUME", "TIERED"] : List String)) :
    (calculateBundlePricing bundle sel tid q).isValid = true
    ∧ (calculateBundlePricing bundle sel tid q).validationErrors = []
    ∧ (calculateBundlePricing bundle sel tid q).appliedDiscount = none
    ∧ (calculateBundlePricing bundle sel tid q).discountedPrice =
        (calculateBundlePricing bundle sel tid q).originalPrice
    ∧ (calculateBundlePricing bundle sel tid q).savingsAmount = 0 := by
  have h1 : ¬(bundle.type = "FIXED") := fun hh => h (by simp [hh])
  have h2 : ¬(bundle.type = "MIX_MATCH") := fun hh => h (by simp [hh])
  have h3 : ¬(bundle.type = "VOLUME") := fun hh => h (by simp [hh])
  have h4 : ¬(bundle.type = "TIERED") := fun hh => h (by simp [hh])
  have hb : applyBundleType bundle sel tid q
      (((sel.map fun i => i.price * i.quantity).sum) * q) =
      ⟨((sel.map fun i => i.price * i.quantity).sum) * q, none, true, []⟩ := by
    simp [applyBundleType, h1, h2, h3, h4]
  refine ⟨?_, ?_, ?_, ?_, ?_⟩
  · rw [calc_isValid, hb]
  · rw [calc_validationErrors, hb]
  · rw [calc_appliedDiscount, hb]
  · rw [calc_discountedPrice, calc_originalPrice, hb]
  · rw [calc_savingsAmount, calc_discountedPrice, calc_originalPrice, hb]
    simp

/-- Witness bundle for C10: an unrecognized type string. -/
def exWeirdBundle : Bundle :=
  ⟨"GIFT_BOX", none, none, none, none, none, true, false, [], [], [], []⟩

/-- Witness for C10 at a concrete unrecognized bundle type. -/
theorem calculateBundlePricing_unrecognized_type_witness :
    (calculateBundlePricing exWeirdBundle [⟨"p", "v", 1, 10⟩] none 1).isValid = true
    ∧ (calculateBundlePricing exWeirdBundle [⟨"p", "v", 1, 10⟩] none 1).validationErrors = []
    ∧ (calculateBundlePricing exWeirdBundle [⟨"p", "v", 1, 10⟩] none 1).appliedDiscount = none
    ∧ (calculateBundlePricing exWeirdBundle [⟨"p", "v", 1, 10⟩] none 1).discountedPrice =
        (calculateBundlePricing exWeirdBundle [⟨"p", "v", 1, 10⟩] none 1).originalPrice
    ∧ (calculateBundlePricing exWeirdBundle [⟨"p", "v", 1, 10⟩] none 1).savingsAmount = 0 :=
  calculateBundlePricing_unrecognized_type exWeirdBundle [⟨"p", "v", 1, 10⟩] none 1 (by decide)

/-- C4. For TIERED bundles: a missing tierId is invalid with "Please
select a tier"; a tierId matching no tier is invalid with "Invalid tier
selected" and the discounted price falls back to the original price; a
matching tier forces `discountedPrice = tier.price * quantity`, and a
selected-quantity/productCount mismatch marks the result invalid with a
descriptive error without blocking that price. -/
theorem calculateBundlePricing_tiered_spec (bundle : Bundle) (sel : List SelectedItem)
    (q : ℚ) (h : bundle.type = "TIERED") :
    ((calculateBundlePricing bundle sel none q).isValid = false ∧
      "Please select a tier" ∈ (calculateBundlePricing bundle sel none q).validationErrors)
    ∧ (∀ tid, tid ≠ "" → bundle.tiers.find? (fun t => t.id == tid) = none →
        (calculateBundlePricing bundle sel (some tid) q).isValid = false ∧
        "Invalid tier selected" ∈
          (calculateBundlePricing bundle sel (some tid) q).validationErrors ∧
        (calculateBundlePricing bundle sel (some tid) q).discountedPrice =
          (calculateBundlePricing bundle sel (some tid) q).originalPrice)
    ∧ (∀ tid tier, tid ≠ "" → bundle.tiers.find? (fun t => t.id == tid) = some tier →
        (calculateBundlePricing bundle sel (some tid) q).discountedPrice =
          tier.price * q ∧
        ((sel.map fun i => i.quantity).sum ≠ tier.productCount →
          (calculateBundlePricing bundle sel (some tid) q).isValid = false ∧
          (tier.name ++ " requires exactly " ++ toString tier.productCount ++ " products") ∈
            (calculateBundlePricing bundle sel (some tid) q).validationErrors)) := by
  refine ⟨?_, ?_, ?_⟩
  · constructor
    · rw [calc_isValid]
      simp [applyBundleType, h]
    · rw [calc_validationErrors]
      simp [applyBundleType, h]
  · intro tid htid hfind
    refine ⟨?_, ?_, ?_⟩
    · rw [calc_isValid]
      simp [applyBundleType, h, htid, hfind]
    · rw [calc_validationErrors]
      simp [applyBundleType, h, htid, hfind]
    · rw [calc_discountedPrice, calc_originalPrice]
      simp [applyBundleType, h, htid, hfind]
  · intro tid tier htid hfind
    constructor
    · rw [calc_discountedPrice]
      simp [applyBundleType, h, htid, hfind]
    · intro hne
      constructor
      · rw [calc_isValid]
        simp [applyBundleType, h, htid, hfind, hne]
      · rw [calc_validationErrors]
        simp [applyBundleType, h, htid, hfind, hne]

/-- Witness bundle for C4: one tier requiring exactly 3 products at 65. -/
def exTieredBundle : Bundle :=
  ⟨"TIERED", none, none, none, none, none, true, false, [], [],
   [⟨"t1", "Tier 1", 65, 3, none⟩], []⟩

/-- Witness for C4: a matching tier with a 2-product selection keeps the
tier price and reports the count mismatch. -/
theorem calculateBundlePricing_tiered_spec_witness :
    ((calculateBundlePricing exTieredBundle [⟨"p", "v", 2, 10⟩] (some "t1") 1).discountedPrice
        = (65 : ℚ) * 1 ∧
      (calculateBundlePricing exTieredBundle [⟨"p", "v", 2, 10⟩] (some "t1") 1).isValid
        = false) := by
  have hfind : exTieredBundle.tiers.find? (fun t => t.id == "t1") =
      some ⟨"t1", "Tier 1", 65, 3, none⟩ := by
    simp [exTieredBundle, List.find?]
  have hcnt : (([⟨"p", "v", 2, 10⟩] : List SelectedItem).map fun i => i.quantity).sum ≠
      (⟨"t1", "Tier 1", 65, 3, none⟩ : BundleTier).productCount := by
    norm_num
  have happ := (calculateBundlePricing_tiered_spec exTieredBundle [⟨"p", "v", 2, 10⟩] 1
    rfl).2.2 "t1" ⟨"t1", "Tier 1", 65, 3, none⟩ (by decide) hfind
  exact ⟨happ.1, (happ.2 hcnt).1⟩

/-- Counterexample bundle for C5: a MIX_MATCH bundle whose `maxProducts`
is set to 0 (allowed by the configuration validator). -/
def cexMixBundle : Bundle :=
  ⟨"MIX_MATCH", none, some "percentage", some 15, none, some 0, true, false, [], [], [], []⟩

/-- Counterexample for C5: `maxProducts` is set (to 0) and the selection
totals 1 > 0, yet the result is valid with no error — JS truthiness treats
the 0 bound as unset, contradicting the claim that any set bound is
compared. -/
theorem calculateBundlePricing_mixmatch_counterexample :
    cexMixBundle.maxProducts = some 0 ∧
    (calculateBundlePricing cexMixBundle [⟨"p", "v", 1, 10⟩] none 1).isValid = true ∧
    (calculateBundlePricing cexMixBundle [⟨"p", "v", 1, 10⟩] none 1).validationErrors = [] := by
  refine ⟨rfl, ?_, ?_⟩ <;>
    simp [calculateBundlePricing, finalizePricing, applyBundleType, discountConfigBranch,
      cexMixBundle]

/-- C5 (amended). For MIX_MATCH bundles the min/maxProducts bounds are
enforced only when the bound is nonzero (JS truthiness treats a 0 bound
as unset): a violated nonzero bound yields isValid = false plus one
descriptive error per violated bound, the configured discount is still
applied arithmetically to the original price, and when no truthy bound is
violated the result is valid with no error. -/
theorem calculateBundlePricing_mixmatch_spec (bundle : Bundle) (sel : List SelectedItem)
    (tid : Option String) (q : ℚ) (h : bundle.type = "MIX_MATCH") :
    (∀ dt dv, bundle.discountType = some dt → dt ≠ "" → bundle.discountValue = some dv →
        (calculateBundlePricing bundle sel tid q).discountedPrice =
          (applyDiscount (calculateBundlePricing bundle sel tid q).originalPrice
            dt dv).discountedPrice)
    ∧ (∀ m, bundle.minProducts = some m → m ≠ 0 →
        (sel.map fun i => i.quantity).sum < m →
        (calculateBundlePricing bundle sel tid q).isValid = false ∧
        ("Minimum " ++ toString m ++ " products required") ∈
          (calculateBundlePricing bundle sel tid q).validationErrors)
    ∧ (∀ m, bundle.maxProducts = some m → m ≠ 0 →
        m < (sel.map fun i => i.quantity).sum →
        (calculateBundlePricing bundle sel tid q).isValid = false ∧
        ("Maximum " ++ toString m ++ " products allowed") ∈
          (calculateBundlePricing bundle sel tid q).validationErrors)
    ∧ ((¬∃ m, bundle.minProducts = some m ∧ m ≠ 0 ∧
          (sel.map fun i => i.quantity).sum < m) →
       (¬∃ m, bundle.maxProducts = some m ∧ m ≠ 0 ∧
          m < (sel.map fun i => i.quantity).sum) →
       (calculateBundlePricing bundle sel tid q).isValid = true ∧
       (calculateBundlePricing bundle sel tid q).validationErrors = []) := by
  refine ⟨?_, ?_, ?_, ?_⟩
  · intro dt dv hdt hdt0 hdv
    rw [calc_discountedPrice, calc_originalPrice]
    simp [applyBundleType, h, discountConfigBranch, hdt, hdv, hdt0]
  · intro m hm hm0 hlt
    constructor
    · rw [calc_isValid]
      simp [applyBundleType, h, hm, hm0, hlt]
    · rw [calc_validationErrors]
      simp [applyBundleType, h, hm, hm0, hlt]
  · intro m hm hm0 hlt
    have hnlt : ¬((sel.map fun i => i.quantity).sum < m) := not_lt_of_lt hlt
    constructor
    · rw [calc_isValid]
      cases hmp : bundle.minProducts with
      | none => simp [applyBundleType, h, hmp, hm, hm0, hlt]
      | some mn =>
          by_cases hc : mn ≠ 0 ∧ (sel.map fun i => i.quantity).sum < mn
          · simp [applyBundleType, h, hmp, hc, hm, hm0, hlt]
          · simp [applyBundleType, h, hmp, hc, hm, hm0, hlt]
    · rw [calc_validationErrors]
      cases hmp : bundle.minProducts with
      | none => simp [applyBundleType, h, hmp, hm, hm0, hlt]
      | some mn =>
          by_cases hc : mn ≠ 0 ∧ (sel.map fun i => i.quantity).sum < mn
          · simp [applyBundleType, h, hmp, hc, hm, hm0, hlt]
          · simp [applyBundleType, h, hmp, hc, hm, hm0, hlt]
  · intro hmin hmax
    have hminE : ∀ mn, bundle.minProducts = some mn →
        ¬(mn ≠ 0 ∧ (sel.map fun i => i.quantity).sum < mn) := by
      intro mn hmn hc
      exact hmin ⟨mn, hmn, hc.1, hc.2⟩
    have hmaxE : ∀ mx, bundle.maxProducts = some mx →
        ¬(mx ≠ 0 ∧ mx < (sel.map fun i => i.quantity).sum) := by
      intro mx hmx hc
      exact hmax ⟨mx, hmx, hc.1, hc.2⟩
    constructor
    · rw [calc_isValid]
      cases hmp : bundle.minProducts with
      | none =>
          cases hxp : bundle.maxProducts with
          | none => simp [applyBundleType, h, hmp, hxp]
          | some mx => simp [applyBundleType, h, hmp, hxp, hmaxE mx hxp]
      | some mn =>
          cases hxp : bundle.maxProducts with
          | none => simp [applyBundleType, h, hmp, hxp, hminE mn hmp]
          | some mx => simp [applyBundleType, h, hmp, hxp, hminE mn hmp, hmaxE mx hxp]
    · rw [calc_validationErrors]
      cases hmp : bundle.minProducts with
      | none =>
          cases hxp : bundle.maxProducts with
          | none => simp [applyBundleType, h, hmp, hxp]
          | some mx => simp [applyBundleType, h, hmp, hxp, hmaxE mx hxp]
      | some mn =>
          cases hxp : bundle.maxProducts with
          | none => simp [applyBundleType, h, hmp, hxp, hminE mn hmp]
          | some mx => simp [applyBundleType, h, hmp, hxp, hminE mn hmp, hmaxE mx hxp]

/-- Witness bundle for C5: MIX_MATCH, 15% off, bounds 3..5. -/
def exMixBundle : Bundle :=
  ⟨"MIX_MATCH", none, some "percentage", some 15, some 3, some 5, true, false, [], [], [], []⟩

/-- Witness for C5: a 2-product selection under the minimum of 3 is
invalid with the descriptive error. -/
theorem calculateBundlePricing_mixmatch_spec_witness :
    (calculateBundlePricing exMixBundle [⟨"p", "v", 2, 10⟩] none 1).isValid = false ∧
    ("Minimum " ++ toString (3 : ℚ) ++ " products required") ∈
      (calculateBundlePricing exMixBundle [⟨"p", "v", 2, 10⟩] none 1).validationErrors :=
  (calculateBundlePricing_mixmatch_spec exMixBundle [⟨"p", "v", 2, 10⟩] none 1 rfl).2.1
    3 rfl (by norm_num) (by norm_num)

/-- C6. Proportional per-item allocation: whenever a discount was applied
and the original price is positive, every per-item discounted price is
the item's original price scaled by the bundle-level discount ratio; when
no discount was applied or the original price is zero, every per-item
discounted price stays equal to that item's original price. -/
theorem calculateBundlePricing_allocation_spec (bundle : Bundle)
    (sel : List SelectedItem) (tid : Option String) (q : ℚ) :
    ((calculateBundlePricing bundle sel tid q).appliedDiscount.isSome = true →
      0 < (calculateBundlePricing bundle sel tid q).originalPrice →
      ∀ ip ∈ (calculateBundlePricing bundle sel tid q).itemPrices,
        ip.discountedPrice = ip.originalPrice *
          ((calculateBundlePricing bundle sel tid q).discountedPrice /
            (calculateBundlePricing bundle sel tid q).originalPrice))
    ∧ (((calculateBundlePricing bundle sel tid q).appliedDiscount = none ∨
        (calculateBundlePricing bundle sel tid q).originalPrice = 0) →
      ∀ ip ∈ (calculateBundlePricing bundle sel tid q).itemPrices,
        ip.discountedPrice = ip.originalPrice) := by
  constructor
  · intro h1 h2 ip hip
    rw [calc_appliedDiscount] at h1
    rw [calc_originalPrice] at h2
    rw [calc_discountedPrice, calc_originalPrice]
    simp only [calculateBundlePricing, finalizePricing] at hip
    rw [if_pos ⟨h1, h2⟩] at hip
    rcases List.mem_map.mp hip with ⟨x, _, rfl⟩
    simp
  · intro hnone ip hip
    rw [calc_appliedDiscount, calc_originalPrice] at hnone
    simp only [calculateBundlePricing, finalizePricing] at hip
    have hcond : ¬((applyBundleType bundle sel tid q
        (((sel.map fun i => i.price * i.quantity).sum) * q)).appliedDiscount.isSome = true ∧
        0 < ((sel.map fun i => i.price * i.quantity).sum) * q) := by
      rcases hnone with hn | hz
      · intro hc
        rw [hn] at hc
        simp at hc
      · intro hc
        rw [hz] at hc
        exact lt_irrefl 0 hc.2
    rw [if_neg hcond] at hip
    rcases List.mem_map.mp hip with ⟨x, _, rfl⟩
    rfl

/-- Witness bundle for C6: MIX_MATCH with 50% off. -/
def exHalfBundle : Bundle :=
  ⟨"MIX_MATCH", none, some "percentage", some 50, none, none, true, false, [], [], [], []⟩

/-- Witness for C6: with one 10-priced item and 50% off, the per-item
entry carries the scaled price. -/
theorem calculateBundlePricing_allocation_spec_witness :
    (⟨"p", "v", 10, 10 * ((calculateBundlePricing exHalfBundle [⟨"p", "v", 1, 10⟩] none 1).discountedPrice /
        (calculateBundlePricing exHalfBundle [⟨"p", "v", 1, 10⟩] none 1).originalPrice), 1⟩ :
      ItemPrice).discountedPrice =
      (⟨"p", "v", 10, 10 * ((calculateBundlePricing exHalfBundle [⟨"p", "v", 1, 10⟩] none 1).discountedPrice /
        (calculateBundlePricing exHalfBundle [⟨"p", "v", 1, 10⟩] none 1).originalPrice), 1⟩ :
      ItemPrice).originalPrice *
        ((calculateBundlePricing exHalfBundle [⟨"p", "v", 1, 10⟩] none 1).discountedPrice /
          (calculateBundlePricing exHalfBundle [⟨"p", "v", 1, 10⟩] none 1).originalPrice) := by
  refine (calculateBundlePricing_allocation_spec exHalfBundle [⟨"p", "v", 1, 10⟩] none 1).1
    ?_ ?_ _ ?_
  · simp [calc_appliedDiscount, applyBundleType, discountConfigBranch, exHalfBundle]
  · rw [calc_originalPrice]
    norm_num
  · simp only [calculateBundlePricing, finalizePricing]
    rw [if_pos]
    · simp
    · constructor
      · simp [applyBundleType, discountConfigBranch, exHalfBundle]
      · norm_num

/-- Counterexample for C7: `formatSavings` divides by `originalPrice`
with no zero guard, so at originalPrice = 0 its percent is a non-finite
JS value (modelled none), not 0. -/
theorem formatSavingsPercent_counterexample :
    formatSavingsPercent 0 5 ≠ some 0 := by
  simp [formatSavingsPercent, jsDiv]

/-- C7 (amended). The `savingsPercent` field of `calculateBundlePricing`
is guarded: it is 0 whenever the original price is 0. `formatSavings`,
however, performs the division unguarded, so at originalPrice = 0 its
percent is non-finite (NaN/Infinity, modelled none) rather than 0. -/
theorem savingsPercent_zero_guard :
    (∀ (bundle : Bundle) (sel : List SelectedItem) (tid : Option String) (q : ℚ),
        (calculateBundlePricing bundle sel tid q).originalPrice = 0 →
        (calculateBundlePricing bundle sel tid q).savingsPercent = 0)
    ∧ ∀ d : ℚ, formatSavingsPercent 0 d = none := by
  constructor
  · intro bundle sel tid q h0
    rw [calc_savingsPercent, h0]
    simp
  · intro d
    simp [formatSavingsPercent, jsDiv]

/-- Witness for C7 (amended): an empty selection makes the original price
zero and the savings percent zero; the formatSavings percent at zero is
non-finite. -/
theorem savingsPercent_zero_guard_witness :
    (calculateBundlePricing exWeirdBundle [] none 1).savingsPercent = 0 ∧
      formatSavingsPercent 0 5 = none :=
  ⟨savingsPercent_zero_guard.1 exWeirdBundle [] none 1 (by rw [calc_originalPrice]; simp),
   savingsPercent_zero_guard.2 5⟩

/-- Membership in a conditional singleton list, split on the condition. -/
theorem mem_ite_singleton {α : Type} {c : Prop} [Decidable c] {x e : α} :
    (e ∈ (if c then [x] else ([] : List α))) ↔ (c ∧ e = x) := by
  by_cases h : c <;> simp [h]

/-- Counterexample bundle for C8: a FIXED bundle as the create route
(src/unnamed/part_015, POST /api/bundles) builds it when the request body
omits `price` and `discountType` — both fields arrive undefined (outer
none), with a title and one item. -/
def cexPartialFixed : PartialBundle :=
  ⟨some "My bundle", some "FIXED", none, none, none, none, none, none, none,
   some [⟨"p", none, "P", 1, true⟩], none, none⟩

/-- Counterexample for C8: this FIXED bundle has neither a price nor a
discountType (both absent), yet `validateBundle` collects no error at all
and reports it valid — the source's strict `=== null` check does not fire
on undefined, so the claimed REQUIRED price error is missing. -/
theorem validateBundle_counterexample :
    cexPartialFixed.type = some "FIXED" ∧
    cexPartialFixed.price = none ∧
    cexPartialFixed.discountType = none ∧
    (validateBundle cexPartialFixed).errors = [] ∧
    (validateBundle cexPartialFixed).isValid = true := by
  refine ⟨rfl, rfl, rfl, ?_, ?_⟩ <;>
    · simp [validateBundle, cexPartialFixed, missingOrEmpty]
      decide

/-- C8 (amended). `validateBundle` is total (it always returns a result)
and its `isValid` is true exactly when the error list is empty. The
REQUIRED price error for FIXED bundles fires only on explicit nulls:
when `price` and `discountType` are both null it is collected and the
result is invalid, but when either field is absent (undefined, as the
create route passes omitted body fields) the strict `=== null` check
skips it, so no REQUIRED price error is collected. -/
theorem validateBundle_spec :
    (∀ b : PartialBundle,
        (validateBundle b).isValid = true ↔ (validateBundle b).errors = [])
    ∧ (∀ b : PartialBundle, b.type = some "FIXED" → b.price = some none →
        b.discountType = some none →
        ((⟨"price", "Fixed bundles must have a price or discount", "REQUIRED"⟩ :
            ValidationError) ∈ (validateBundle b).errors ∧
          (validateBundle b).isValid = false))
    ∧ (∀ b : PartialBundle, b.type = some "FIXED" →
        (b.price = none ∨ b.discountType = none) →
        (⟨"price", "Fixed bundles must have a price or discount", "REQUIRED"⟩ :
            ValidationError) ∉ (validateBundle b).errors) := by
  have hiv : ∀ b : PartialBundle,
      (validateBundle b).isValid = (validateBundle b).errors.isEmpty := by
    intro b
    simp [validateBundle]
  refine ⟨?_, ?_, ?_⟩
  · intro b
    rw [hiv b]
    exact List.isEmpty_iff
  · intro b ht hp hd
    have hmem : (⟨"price", "Fixed bundles must have a price or discount", "REQUIRED"⟩ :
        ValidationError) ∈ (validateBundle b).errors := by
      simp [validateBundle, ht, hp, hd]
    refine ⟨hmem, ?_⟩
    rw [hiv b]
    cases hE : (validateBundle b).errors with
    | nil => rw [hE] at hmem; cases hmem
    | cons a t => rfl
  · intro b ht hor hmem
    have hcond : ¬(b.price = some none ∧ b.discountType = some none) := by
      rcases hor with h1 | h1 <;> simp [h1]
    cases htitle : b.title <;> cases hsd : b.startDate <;> cases hed : b.endDate <;>
      simp [validateBundle, ht, htitle, hsd, hed, hcond, mem_ite_singleton,
        List.mem_append] at hmem

/-- Witness partial bundle for C8: FIXED with items and explicit nulls
for price and discountType (the DB-row shape the update route passes). -/
def exPartialFixed : PartialBundle :=
  ⟨some "My bundle", some "FIXED", some none, some none, none, none, none, none, none,
   some [⟨"p", none, "P", 1, true⟩], none, none⟩

/-- Witness for C8 at a concrete FIXED bundle with explicitly null price
and discount type. -/
theorem validateBundle_spec_witness :
    ((⟨"price", "Fixed bundles must have a price or discount", "REQUIRED"⟩ :
        ValidationError) ∈ (validateBundle exPartialFixed).errors ∧
      (validateBundle exPartialFixed).isValid = false) :=
  validateBundle_spec.2.1 exPartialFixed rfl rfl rfl

/-- Counterexample bundle for C9: a VOLUME bundle with
`applyToSameProduct` enabled and one volume rule. -/
def exSameProdBundle : Bundle :=
  ⟨"VOLUME", none, none, none, none, none, true, true, [],
   [⟨1, none, "percentage", 10, none⟩], [], []⟩

/-- Counterexample for C9: on the storefront validate path, a selection
spanning two distinct productIds under a VOLUME bundle with
`applyToSameProduct` produces no error and is reported valid — the
storefront route has no same-product check. -/
theorem storefrontValidate_same_product_counterexample :
    exSameProdBundle.type = "VOLUME" ∧
    exSameProdBundle.applyToSameProduct = true ∧
    (firstDedup (([⟨"p1", "v1", 1, 10⟩, ⟨"p2", "v2", 1, 10⟩] :
        List SelectedItem).map fun i => i.productId)).length = 2 ∧
    (storefrontValidate exSameProdBundle
      [⟨"p1", "v1", 1, 10⟩, ⟨"p2", "v2", 1, 10⟩] none 1).1 = [] ∧
    storefrontValidateIsValid exSameProdBundle
      [⟨"p1", "v1", 1, 10⟩, ⟨"p2", "v2", 1, 10⟩] none 1 [] = true := by
  refine ⟨rfl, rfl, ?_, ?_, ?_⟩
  · simp [firstDedup]
  · simp [storefrontValidate, exSameProdBundle, ruleQualifies]
  · simp [storefrontValidateIsValid, storefrontValidate, exSameProdBundle, ruleQualifies]

/-- C9 (amended). The same-product constraint is enforced by the admin
pricing-validation route: for VOLUME bundles with `applyToSameProduct`,
a selection spanning more than one distinct productId receives the
SAME_PRODUCT_REQUIRED error there, so that route reports the selection
invalid; the storefront validate route performs no such check. -/
theorem pricingValidate_same_product (bundle : Bundle) (sel : List SelectedItem)
    (tid : Option String) (q : ℚ) (h : bundle.type = "VOLUME")
    (ha : bundle.applyToSameProduct = true)
    (hd : 1 < (firstDedup (sel.map fun i => i.productId)).length) :
    (⟨"selectedItems", "Volume discount applies only to the same product",
        "SAME_PRODUCT_REQUIRED"⟩ : ValidationError) ∈ (pricingValidate bundle sel tid q).1 ∧
      (pricingValidate bundle sel tid q).1 ≠ [] := by
  have hs : sameProductErrors bundle sel =
      [⟨"selectedItems", "Volume discount applies only to the same product",
        "SAME_PRODUCT_REQUIRED"⟩] := by
    simp [sameProductErrors, ha, hd]
  have hmem : (⟨"selectedItems", "Volume discount applies only to the same product",
      "SAME_PRODUCT_REQUIRED"⟩ : ValidationError) ∈ (pricingValidate bundle sel tid q).1 := by
    cases hvr : bundle.volumeRules.isEmpty <;>
      simp [pricingValidate, h, hvr, hs]
  exact ⟨hmem, List.ne_nil_of_mem hmem⟩

/-- Witness for C9 (amended): the admin route flags a two-product
selection under the same-product volume bundle. -/
theorem pricingValidate_same_product_witness :
    (⟨"selectedItems", "Volume discount applies only to the same product",
        "SAME_PRODUCT_REQUIRED"⟩ : ValidationError) ∈
      (pricingValidate exSameProdBundle
        [⟨"p1", "v1", 1, 10⟩, ⟨"p2", "v2", 1, 10⟩] none 1).1 ∧
      (pricingValidate exSameProdBundle
        [⟨"p1", "v1", 1, 10⟩, ⟨"p2", "v2", 1, 10⟩] none 1).1 ≠ [] :=
  pricingValidate_same_product exSameProdBundle
    [⟨"p1", "v1", 1, 10⟩, ⟨"p2", "v2", 1, 10⟩] none 1 rfl rfl (by simp [firstDedup])
